import Mathlib

/-!
Verification development for the `earbug-gchat` service.

The service exposes a single `/summary` HTTP handler (two near-duplicate
variants exist in the repository: `server/server.go` with one anonymous
pipeline function, and a second variant split into three anonymous stage
functions).  The pipeline validates the request, fetches a per-user object
from blob storage, zstd-decompresses and proto-decodes it into a playback
log (a map from timestamp strings to playback events), aggregates a
"yesterday" summary, formats it and posts it to a chat webhook.

This file shallowly embeds:
  * the cutoff-date computation `time.Now().Add(-24h).Format("2006-01-02")`
    (an instant is a civil day number plus a second-of-day; `Format`
    discards the time of day, so subtracting 24 hours shifts the day by 1);
  * the aggregation loop over the playback map, including the latent
    out-of-range slice `ts[:10]` on keys shorter than 10 characters, which
    is modelled as `Except.error` (a Go panic);
  * the message formatter `fmt.Sprintf("%s | %v plays | %v tracks (%v new)", ...)`;
  * both handler variants as functions of an environment of collaborator
    outcomes (body read, JSON user extraction, object reader, zstd reader,
    stream drain, proto unmarshal, webhook post), each returning the HTTP
    status, the response label, and the trace of collaborator calls made.
-/

namespace Earbug

/-- Civil date triple produced from a day number. -/
structure CivilDate where
  year : Int
  month : Nat
  day : Nat
deriving DecidableEq, Repr

/-- Days-since-1970-01-01 to civil date (standard Gregorian conversion,
as performed by Go's `time.Time.Format` date part). -/
def civilFromDays (z0 : Int) : CivilDate :=
  let z := z0 + 719468
  let era : Int := (if 0 ≤ z then z else z - 146096) / 146097
  let doe : Nat := (z - era * 146097).toNat
  let yoe : Nat := (doe - doe / 1460 + doe / 36524 - doe / 146096) / 365
  let y : Int := (yoe : Int) + era * 400
  let doy : Nat := doe - (365 * yoe + yoe / 4 - yoe / 100)
  let mp : Nat := (5 * doy + 2) / 153
  let d : Nat := doy - (153 * mp + 2) / 5 + 1
  let m : Nat := if mp < 10 then mp + 3 else mp - 9
  ⟨if m ≤ 2 then y + 1 else y, m, d⟩

/-- Civil date to days-since-1970-01-01 (inverse of `civilFromDays`,
used to name concrete instants in examples). -/
def daysFromCivil (y0 : Int) (m d : Nat) : Int :=
  let y : Int := if m ≤ 2 then y0 - 1 else y0
  let era : Int := (if 0 ≤ y then y else y - 399) / 400
  let yoe : Nat := (y - era * 400).toNat
  let doy : Nat := (153 * (if 2 < m then m - 3 else m + 9) + 2) / 5 + d - 1
  let doe : Nat := yoe * 365 + yoe / 4 - yoe / 100 + doy
  era * 146097 + (doe : Int) - 719468

/-- Left-pad the decimal rendering of `n` with zeros to two digits
(the `01`/`02` verbs of Go's reference layout). -/
def pad2 (n : Nat) : String :=
  if n < 10 then "0" ++ toString n else toString n

/-- Left-pad the decimal rendering of a year to four digits
(the `2006` verb of Go's reference layout). -/
def pad4 (y : Int) : String :=
  if y < 0 then "-" ++ toString (-y)
  else if y < 10 then "000" ++ toString y
  else if y < 100 then "00" ++ toString y
  else if y < 1000 then "0" ++ toString y
  else toString y

/-- Render a civil date in Go's `"2006-01-02"` layout. -/
def formatCivil (c : CivilDate) : String :=
  pad4 c.year ++ "-" ++ pad2 c.month ++ "-" ++ pad2 c.day

/-- A wall-clock instant: a civil day number (days since 1970-01-01) and a
second of that day.  `time.Time.Format("2006-01-02")` uses only the day. -/
structure Instant where
  day : Int
  secOfDay : Nat
deriving DecidableEq, Repr

/-- `time.Now().Add(time.Duration(-24) * time.Hour).Format("2006-01-02")`:
subtracting 24 hours keeps the second of day and moves one day back, and
the layout `"2006-01-02"` prints only the civil date. -/
def cutoffOf (now : Instant) : String :=
  formatCivil (civilFromDays (now.day - 1))

/-- The statistics computed by the aggregation loop:
`tsPrefix`, `yesterdayPlays`, `len(playedYesterday)`, `yesterdayNewTracks`. -/
structure SummaryStats where
  cutoff : String
  playCount : Nat
  distinctTrackCount : Nat
  newTrackCount : Nat
deriving DecidableEq, Repr

/-- The mutable locals of the aggregation loop in `summary`:
`playedBefore`, `playedYesterday` (Go `map[string]struct{}` — sets) and
the counter `yesterdayPlays`. -/
structure AggState where
  playedBefore : Finset String
  playedYesterday : Finset String
  yesterdayPlays : Nat
deriving DecidableEq

/-- One iteration of `for ts, played := range data.Playbacks`.
Go's `ts[:10]` panics when `len(ts) < 10`; the panic is `Except.error ()`.
`strings.Compare(ts[:10], tsPrefix)` is lexicographic comparison. -/
def stepE (cutoff : String) (st : AggState) (e : String × String) :
    Except Unit AggState :=
  if 10 ≤ e.1.length then
    match compare (e.1.take 10) cutoff with
    | .lt => .ok { st with playedBefore := insert e.2 st.playedBefore }
    | .eq => .ok { st with yesterdayPlays := st.yesterdayPlays + 1,
                           playedYesterday := insert e.2 st.playedYesterday }
    | .gt => .ok st
  else .error ()

/-- The loop body lifted to an `Except` accumulator: once an iteration
panics the whole aggregation is a panic. -/
def aggFold (cutoff : String) (acc : Except Unit AggState) (e : String × String) :
    Except Unit AggState :=
  match acc with
  | .error u => .error u
  | .ok st => stepE cutoff st e

/-- `summarize(log, now)`: the aggregation step of the handler.  The Go map
`data.Playbacks` is embedded as an association list (iteration order of a
Go map is arbitrary; order-independence is proved below).  After the loop,
`yesterdayNewTracks` counts the members of `playedYesterday` absent from
`playedBefore`. -/
def summarizeE (log : List (String × String)) (now : Instant) :
    Except Unit SummaryStats :=
  let cutoff := cutoffOf now
  match log.foldl (aggFold cutoff) (.ok ⟨∅, ∅, 0⟩) with
  | .error u => .error u
  | .ok st =>
      .ok ⟨cutoff, st.yesterdayPlays, st.playedYesterday.card,
           (st.playedYesterday.filter (fun id => id ∉ st.playedBefore)).card⟩

/-- `fmt.Sprintf("%s | %v plays | %v tracks (%v new)", tsPrefix,
yesterdayPlays, len(playedYesterday), yesterdayNewTracks)`; `%v` renders an
`int` in decimal. -/
def formatStats (s : SummaryStats) : String :=
  s.cutoff ++ " | " ++ toString s.playCount ++ " plays | " ++
    toString s.distinctTrackCount ++ " tracks (" ++
    toString s.newTrackCount ++ " new)"

/-- One collaborator invocation made by the pipeline, in order:
`obj.NewReader`, `zstd.NewReader`, `io.ReadAll(zr)`, `proto.Unmarshal`,
`s.gchat.Post` (with the message text). -/
inductive Call where
  | newObjectReader (key : String)
  | newZstdReader
  | readObject
  | unmarshalProto
  | postMessage (text : String)
deriving DecidableEq, Repr

/-- A request environment: the inbound request together with the outcome of
every external collaborator the pipeline may consult. `Except.error ()`
is the collaborator failing with some Go `error`. -/
structure Env where
  /-- `r.Method`. -/
  method : String
  /-- `io.ReadAll(r.Body)`: the body bytes, or a read error. -/
  body : Except Unit String
  /-- `json.Unmarshal(b, &user)`: `none` is a JSON error, `some u` is
  success with `user.User = u` (possibly empty). -/
  userOf : String → Option String
  /-- `s.bkt.Object(key).NewReader(ctx)`: the raw object stream for a key. -/
  objReader : String → Except Unit String
  /-- `zstd.NewReader(or)`: the decompressing reader over a raw stream. -/
  zstdNew : String → Except Unit String
  /-- `io.ReadAll(zr)`: draining the decompressed stream. -/
  readObj : String → Except Unit String
  /-- `proto.Unmarshal(b, &data)`: the decoded `Store.Playbacks` map as an
  association list `timestamp ↦ trackId`. -/
  unmarshalStore : String → Except Unit (List (String × String))
  /-- `time.Now()` at aggregation time. -/
  now : Instant
  /-- `s.gchat.Post(ctx, payload)` for a given message text. -/
  post : String → Except Unit Unit

/-- The externally observable outcome of a handler run: the HTTP status
code, the response label written to the body, and the ordered trace of
collaborator calls that were actually made. -/
structure HandlerResult where
  status : Nat
  label : String
  calls : List Call
deriving DecidableEq, Repr

/-- The `summary` handler of `server/server.go` (single anonymous pipeline
function, early `return` per stage).  `Except.error ()` is a Go panic
escaping the handler (the `ts[:10]` slice fault). -/
def handler1 (e : Env) : Except Unit HandlerResult :=
  if e.method ≠ "POST" then .ok ⟨405, "invalid method", []⟩
  else
    match e.body with
    | .error _ => .ok ⟨400, "read body", []⟩
    | .ok b =>
      match e.userOf b with
      | none => .ok ⟨400, "unmarshal body", []⟩
      | some u =>
        if u = "" then .ok ⟨400, "unmarshal body", []⟩
        else
          let key := u ++ ".pb.zstd"
          match e.objReader key with
          | .error _ => .ok ⟨500, "create object reader", [.newObjectReader key]⟩
          | .ok raw =>
            match e.zstdNew raw with
            | .error _ =>
                .ok ⟨500, "create zstd reader",
                     [.newObjectReader key, .newZstdReader]⟩
            | .ok zr =>
              match e.readObj zr with
              | .error _ =>
                  .ok ⟨500, "read object",
                       [.newObjectReader key, .newZstdReader, .readObject]⟩
              | .ok bytes =>
                match e.unmarshalStore bytes with
                | .error _ =>
                    .ok ⟨500, "unmarshal as proto",
                         [.newObjectReader key, .newZstdReader, .readObject,
                          .unmarshalProto]⟩
                | .ok playbacks =>
                  match summarizeE playbacks e.now with
                  | .error _ => .error ()
                  | .ok stats =>
                    let msg := formatStats stats
                    match e.post msg with
                    | .error _ =>
                        .ok ⟨500, "post message",
                             [.newObjectReader key, .newZstdReader, .readObject,
                              .unmarshalProto, .postMessage msg]⟩
                    | .ok _ =>
                        .ok ⟨200, "ok",
                             [.newObjectReader key, .newZstdReader, .readObject,
                              .unmarshalProto, .postMessage msg]⟩

/-- First anonymous stage of the second handler variant (`extract-user`):
method check, body read, JSON unmarshal with the empty-user check.
`Sum.inl` is an early error response, `Sum.inr` the extracted user. -/
def extractUserStage (e : Env) : HandlerResult ⊕ String :=
  if e.method ≠ "POST" then .inl ⟨405, "invalid method", []⟩
  else
    match e.body with
    | .error _ => .inl ⟨400, "read body", []⟩
    | .ok b =>
      match e.userOf b with
      | none => .inl ⟨400, "unmarshal body", []⟩
      | some u =>
        if u = "" then .inl ⟨400, "unmarshal body", []⟩ else .inr u

/-- Second anonymous stage of the second handler variant (`read-data`):
object fetch, zstd reader, stream drain, proto unmarshal.  Returns either
an early error response or the decoded playbacks with the calls made. -/
def readDataStage (e : Env) (u : String) :
    HandlerResult ⊕ (List (String × String) × List Call) :=
  let key := u ++ ".pb.zstd"
  match e.objReader key with
  | .error _ => .inl ⟨500, "create object reader", [.newObjectReader key]⟩
  | .ok raw =>
    match e.zstdNew raw with
    | .error _ =>
        .inl ⟨500, "create zstd reader", [.newObjectReader key, .newZstdReader]⟩
    | .ok zr =>
      match e.readObj zr with
      | .error _ =>
          .inl ⟨500, "read object",
                [.newObjectReader key, .newZstdReader, .readObject]⟩
      | .ok bytes =>
        match e.unmarshalStore bytes with
        | .error _ =>
            .inl ⟨500, "unmarshal as proto",
                  [.newObjectReader key, .newZstdReader, .readObject,
                   .unmarshalProto]⟩
        | .ok playbacks =>
            .inr (playbacks,
                  [.newObjectReader key, .newZstdReader, .readObject,
                   .unmarshalProto])

/-- Third anonymous stage of the second handler variant (`post-summary`):
aggregation (may panic on a short key), formatting, webhook post. -/
def postSummaryStage (e : Env) (playbacks : List (String × String))
    (calls : List Call) : Except Unit HandlerResult :=
  match summarizeE playbacks e.now with
  | .error _ => .error ()
  | .ok stats =>
    let msg := formatStats stats
    match e.post msg with
    | .error _ => .ok ⟨500, "post message", calls ++ [.postMessage msg]⟩
    | .ok _ => .ok ⟨200, "ok", calls ++ [.postMessage msg]⟩

/-- The `summary` handler of the second variant: the three stages run
sequentially, each early error response terminating the pipeline. -/
def handler2 (e : Env) : Except Unit HandlerResult :=
  match extractUserStage e with
  | .inl r => .ok r
  | .inr u =>
    match readDataStage e u with
    | .inl r => .ok r
    | .inr (playbacks, calls) => postSummaryStage e playbacks calls

/-- A concrete environment whose zstd-reader creation fails (used to
instantiate the decode-failure theorem at a closed input). -/
def envZstdFail : Env where
  method := "POST"
  body := .ok "user alice"
  userOf := fun _ => some "alice"
  objReader := fun _ => .ok "rawbytes"
  zstdNew := fun _ => .error ()
  readObj := fun _ => .error ()
  unmarshalStore := fun _ => .error ()
  now := ⟨19784, 0⟩
  post := fun _ => .ok ()

/-- A concrete environment whose body is malformed JSON (used to
instantiate the validation-failure theorem at a closed input). -/
def envBadJson : Env where
  method := "POST"
  body := .ok "not json"
  userOf := fun _ => none
  objReader := fun _ => .ok "rawbytes"
  zstdNew := fun s => .ok s
  readObj := fun s => .ok s
  unmarshalStore := fun _ => .ok []
  now := ⟨19784, 0⟩
  post := fun _ => .ok ()

/- ------------------------------------------------------------------ -/
/- Helper lemmas about the aggregation fold.                           -/
/- ------------------------------------------------------------------ -/

/-- Once the loop has panicked, the rest of the fold stays panicked. -/
theorem foldl_aggFold_error (c : String) (u : Unit)
    (l : List (String × String)) :
    l.foldl (aggFold c) (.error u) = .error u := by
  induction l with
  | nil => rfl
  | cons a l ih => simpa [aggFold] using ih

/-- A loop iteration on a key of length at least 10 does not panic. -/
theorem stepE_ok_of_long (c : String) (st : AggState) (e : String × String)
    (h : 10 ≤ e.1.length) : ∃ st', stepE c st e = .ok st' := by
  unfold stepE
  rw [if_pos h]
  cases compare (e.1.take 10) c <;> exact ⟨_, rfl⟩

/-- When every key has length at least 10, the whole fold succeeds. -/
theorem foldl_aggFold_ok (c : String) (l : List (String × String))
    (h : ∀ p ∈ l, 10 ≤ p.1.length) (st : AggState) :
    ∃ st', l.foldl (aggFold c) (.ok st) = .ok st' := by
  induction l generalizing st with
  | nil => exact ⟨st, rfl⟩
  | cons a l ih =>
    obtain ⟨st₁, h₁⟩ := stepE_ok_of_long c st a (h a (List.mem_cons_self a l))
    rw [List.foldl_cons, show aggFold c (.ok st) a = stepE c st a from rfl, h₁]
    exact ih (fun p hp => h p (List.mem_cons_of_mem a hp)) st₁

/-- One loop iteration preserves `|playedYesterday| ≤ yesterdayPlays`. -/
theorem stepE_card_le (c : String) (st st' : AggState) (e : String × String)
    (h : stepE c st e = .ok st')
    (hle : st.playedYesterday.card ≤ st.yesterdayPlays) :
    st'.playedYesterday.card ≤ st'.yesterdayPlays := by
  unfold stepE at h
  split at h
  · split at h <;> cases h
    · exact hle
    · exact le_trans (Finset.card_insert_le _ _) (Nat.succ_le_succ hle)
    · exact hle
  · cases h

/-- The fold preserves `|playedYesterday| ≤ yesterdayPlays`. -/
theorem foldl_card_le (c : String) (l : List (String × String))
    (st st' : AggState)
    (h : l.foldl (aggFold c) (.ok st) = .ok st')
    (hle : st.playedYesterday.card ≤ st.yesterdayPlays) :
    st'.playedYesterday.card ≤ st'.yesterdayPlays := by
  induction l generalizing st with
  | nil =>
    cases h
    exact hle
  | cons a l ih =>
    rw [List.foldl_cons, show aggFold c (.ok st) a = stepE c st a from rfl] at h
    cases h₁ : stepE c st a with
    | error u =>
      rw [h₁, foldl_aggFold_error] at h
      cases h
    | ok st₁ =>
      rw [h₁] at h
      exact ih st₁ h (stepE_card_le c st st₁ a h₁ hle)

/-- Loop iterations commute (in the `Except` accumulator): the two sets are
updated by commuting insertions, the counter by commuting increments, and a
panic depends only on the key, not on the accumulated state. -/
theorem aggFold_comm (c : String) (z : Except Unit AggState)
    (a b : String × String) :
    aggFold c (aggFold c z a) b = aggFold c (aggFold c z b) a := by
  cases z with
  | error u => rfl
  | ok st =>
    show aggFold c (stepE c st a) b = aggFold c (stepE c st b) a
    by_cases ha : 10 ≤ a.1.length
    · by_cases hb : 10 ≤ b.1.length
      · cases hca : compare (a.1.take 10) c <;>
          cases hcb : compare (b.1.take 10) c <;>
            simp [stepE, aggFold, ha, hb, hca, hcb]
        · exact Finset.Insert.comm _ _ _
        · exact Finset.Insert.comm _ _ _
      · cases hsa : stepE c st a with
        | error u => simp [aggFold, stepE, hsa, hb]
        | ok st₁ => simp [aggFold, stepE, hsa, hb]
    · cases hsb : stepE c st b with
      | error u => simp [aggFold, stepE, hsb, ha]
      | ok st₁ => simp [aggFold, stepE, hsb, ha]

/- ------------------------------------------------------------------ -/
/- Claim theorems.                                                     -/
/- ------------------------------------------------------------------ -/

/-- C1: for the log `{"2024-03-01T10:00:00" ↦ A, "2024-02-28T10:00:00" ↦ A,
"2024-03-01T11:00:00" ↦ B}` and `now = 2024-03-02T00:00:00`, the
aggregation computes `cutoff = "2024-03-01"`, `playCount = 2`,
`distinctTrackCount = 2`, `newTrackCount = 1`.  The first conjunct pins
down that the instant used really is the civil date 2024-03-02. -/
theorem c1_summary_example :
    civilFromDays (daysFromCivil 2024 3 2) = ⟨2024, 3, 2⟩ ∧
    summarizeE
      [("2024-03-01T10:00:00", "A"), ("2024-02-28T10:00:00", "A"),
       ("2024-03-01T11:00:00", "B")]
      ⟨daysFromCivil 2024 3 2, 0⟩ =
      .ok ⟨"2024-03-01", 2, 2, 1⟩ :=
  ⟨rfl, rfl⟩

/-- C2: for every playback log whose timestamp keys all have at least 10
characters and every reference instant, the aggregation succeeds and its
`newTrackCount` is at least 0 and at most `distinctTrackCount`. -/
theorem c2_new_le_distinct (log : List (String × String)) (now : Instant)
    (h : ∀ p ∈ log, 10 ≤ p.1.length) :
    ∃ s, summarizeE log now = .ok s ∧
      0 ≤ s.newTrackCount ∧ s.newTrackCount ≤ s.distinctTrackCount := by
  obtain ⟨st, hst⟩ := foldl_aggFold_ok (cutoffOf now) log h ⟨∅, ∅, 0⟩
  refine ⟨⟨cutoffOf now, st.yesterdayPlays, st.playedYesterday.card,
           (st.playedYesterday.filter (fun id => id ∉ st.playedBefore)).card⟩,
         ?_, Nat.zero_le _, ?_⟩
  · simp only [summarizeE]
    rw [hst]
  · exact Finset.card_filter_le _ _

/-- C2 witness: the bound instantiated at a concrete one-event log. -/
theorem c2_new_le_distinct_witness :
    ∃ s, summarizeE [("2024-03-01T10:00:00", "A")] ⟨19784, 0⟩ = .ok s ∧
      0 ≤ s.newTrackCount ∧ s.newTrackCount ≤ s.distinctTrackCount :=
  c2_new_le_distinct [("2024-03-01T10:00:00", "A")] ⟨19784, 0⟩ (by decide)

/-- C3: an event whose 10-character date prefix is strictly later than the
cutoff date contributes nothing: appending it to the log leaves the whole
aggregation result (hence playCount, distinctTrackCount and newTrackCount)
unchanged. -/
theorem c3_later_events_ignored (log : List (String × String))
    (now : Instant) (k v : String) (hk : 10 ≤ k.length)
    (hgt : compare (k.take 10) (cutoffOf now) = .gt) :
    summarizeE (log ++ [(k, v)]) now = summarizeE log now := by
  simp only [summarizeE]
  rw [List.foldl_append]
  cases h : log.foldl (aggFold (cutoffOf now)) (.ok ⟨∅, ∅, 0⟩) with
  | error u => rfl
  | ok st => simp [aggFold, stepE, hk, hgt]

/-- C3 witness: appending a strictly-later event to a one-event log. -/
theorem c3_later_events_ignored_witness :
    summarizeE
      ([("2024-03-01T10:00:00", "A")] ++ [("2024-03-05T00:00:00", "X")])
      ⟨19784, 0⟩ =
    summarizeE [("2024-03-01T10:00:00", "A")] ⟨19784, 0⟩ :=
  c3_later_events_ignored [("2024-03-01T10:00:00", "A")] ⟨19784, 0⟩
    "2024-03-05T00:00:00" "X" (by decide) (by decide)

/-- C4: the aggregation is deterministic and independent of the iteration
order over the playback map: permuting the association list embedding the
map leaves the result unchanged (so two runs on identical arguments agree
whatever order the Go runtime iterates the map in; the embedding is a pure
function, so the input log is never mutated). -/
theorem c4_order_independent (l₁ l₂ : List (String × String))
    (now : Instant) (hp : l₁.Perm l₂) :
    summarizeE l₁ now = summarizeE l₂ now := by
  simp only [summarizeE]
  rw [List.Perm.foldl_eq' hp (fun x _ y _ z => aggFold_comm (cutoffOf now) z x y) _]

/-- C4 witness: the two orders of a two-event log agree. -/
theorem c4_order_independent_witness :
    summarizeE [("2024-03-01T10:00:00", "A"), ("2024-02-28T10:00:00", "B")]
      ⟨19784, 0⟩ =
    summarizeE [("2024-02-28T10:00:00", "B"), ("2024-03-01T10:00:00", "A")]
      ⟨19784, 0⟩ :=
  c4_order_independent _ _ ⟨19784, 0⟩
    (List.Perm.swap ("2024-02-28T10:00:00", "B") ("2024-03-01T10:00:00", "A") [])

/-- C5: the source aggregation loop slices `ts[:10]` unchecked, so a log
containing the 7-character key `"2024-03"` makes the loop panic
(`Except.error ()` in this embedding) instead of surfacing a defined
`MalformedTimestampError` stage failure. -/
theorem c5_short_key_panics :
    summarizeE [("2024-03", "A")] ⟨19784, 0⟩ = .error () := rfl

/-- C9: the formatter produces exactly
`"<cutoff> | <playCount> plays | <distinctTrackCount> tracks (<newTrackCount> new)"`
with the counts in decimal, and on
`{cutoff := "2024-03-01", playCount := 2, distinctTrackCount := 2,
newTrackCount := 1}` yields exactly
`"2024-03-01 | 2 plays | 2 tracks (1 new)"`. -/
theorem c9_format_exact :
    (∀ s : SummaryStats, formatStats s =
      s.cutoff ++ " | " ++ toString s.playCount ++ " plays | " ++
        toString s.distinctTrackCount ++ " tracks (" ++
        toString s.newTrackCount ++ " new)") ∧
    formatStats ⟨"2024-03-01", 2, 2, 1⟩ =
      "2024-03-01 | 2 plays | 2 tracks (1 new)" :=
  ⟨fun _ => rfl, rfl⟩

/-- C10: for every playback log whose timestamp keys all have at least 10
characters and every reference instant, the aggregation succeeds and its
`distinctTrackCount` never exceeds its `playCount`: each event on the
cutoff date increments the play counter exactly once, and each distinct
yesterday track needs at least one such event. -/
theorem c10_distinct_le_plays (log : List (String × String)) (now : Instant)
    (h : ∀ p ∈ log, 10 ≤ p.1.length) :
    ∃ s, summarizeE log now = .ok s ∧
      s.distinctTrackCount ≤ s.playCount := by
  obtain ⟨st, hst⟩ := foldl_aggFold_ok (cutoffOf now) log h ⟨∅, ∅, 0⟩
  refine ⟨⟨cutoffOf now, st.yesterdayPlays, st.playedYesterday.card,
           (st.playedYesterday.filter (fun id => id ∉ st.playedBefore)).card⟩,
         ?_, ?_⟩
  · simp only [summarizeE]
    rw [hst]
  · exact foldl_card_le (cutoffOf now) log ⟨∅, ∅, 0⟩ st hst (by simp)

/-- C10 witness: the bound instantiated at a concrete two-event log. -/
theorem c10_distinct_le_plays_witness :
    ∃ s, summarizeE
        [("2024-03-01T10:00:00", "A"), ("2024-03-01T11:00:00", "A")]
        ⟨19784, 0⟩ = .ok s ∧
      s.distinctTrackCount ≤ s.playCount :=
  c10_distinct_le_plays
    [("2024-03-01T10:00:00", "A"), ("2024-03-01T11:00:00", "A")]
    ⟨19784, 0⟩ (by decide)

/-- C6: after successful validation and object fetch, a failure of any of
the three decode sub-steps (zstd reader creation, stream drain, proto
unmarshal) terminates the pipeline with status 500 and its own distinct
label, and the notify sink is never invoked in such a run. -/
theorem c6_decode_failure_labels (e : Env) (b u raw : String)
    (hm : e.method = "POST") (hb : e.body = .ok b)
    (hu : e.userOf b = some u) (hue : u ≠ "")
    (hor : e.objReader (u ++ ".pb.zstd") = .ok raw) :
    (e.zstdNew raw = .error () →
      ∃ r, handler1 e = .ok r ∧ r.status = 500 ∧
        r.label = "create zstd reader" ∧
        ∀ t, Call.postMessage t ∉ r.calls) ∧
    (∀ zr, e.zstdNew raw = .ok zr → e.readObj zr = .error () →
      ∃ r, handler1 e = .ok r ∧ r.status = 500 ∧
        r.label = "read object" ∧
        ∀ t, Call.postMessage t ∉ r.calls) ∧
    (∀ zr bs, e.zstdNew raw = .ok zr → e.readObj zr = .ok bs →
        e.unmarshalStore bs = .error () →
      ∃ r, handler1 e = .ok r ∧ r.status = 500 ∧
        r.label = "unmarshal as proto" ∧
        ∀ t, Call.postMessage t ∉ r.calls) := by
  refine ⟨fun hz => ?_, fun zr hz hr => ?_, fun zr bs hz hr hum => ?_⟩
  · refine ⟨⟨500, "create zstd reader",
             [.newObjectReader (u ++ ".pb.zstd"), .newZstdReader]⟩,
           ?_, rfl, rfl, ?_⟩
    · simp [handler1, hm, hb, hu, hue, hor, hz]
    · intro t
      simp
  · refine ⟨⟨500, "read object",
             [.newObjectReader (u ++ ".pb.zstd"), .newZstdReader, .readObject]⟩,
           ?_, rfl, rfl, ?_⟩
    · simp [handler1, hm, hb, hu, hue, hor, hz, hr]
    · intro t
      simp
  · refine ⟨⟨500, "unmarshal as proto",
             [.newObjectReader (u ++ ".pb.zstd"), .newZstdReader, .readObject,
              .unmarshalProto]⟩,
           ?_, rfl, rfl, ?_⟩
    · simp [handler1, hm, hb, hu, hue, hor, hz, hr, hum]
    · intro t
      simp

/-- C6 witness: the zstd sub-step failing in a concrete environment. -/
theorem c6_decode_failure_labels_witness :
    ∃ r, handler1 envZstdFail = .ok r ∧ r.status = 500 ∧
      r.label = "create zstd reader" ∧
      ∀ t, Call.postMessage t ∉ r.calls :=
  (c6_decode_failure_labels envZstdFail "user alice" "alice"
    "rawbytes" rfl rfl rfl (by decide) rfl).1 rfl

/-- C7: a POST request whose body is malformed JSON, or valid JSON with an
empty `user` field, is rejected by both handler variants with status 400
and label `"unmarshal body"`, and no later pipeline stage runs (the trace
of collaborator calls is empty, for every fetch/decode/notify
collaborator). -/
theorem c7_unmarshal_body_rejects (e : Env) (b : String)
    (hm : e.method = "POST") (hb : e.body = .ok b)
    (hu : e.userOf b = none ∨ e.userOf b = some "") :
    handler1 e = .ok ⟨400, "unmarshal body", []⟩ ∧
    handler2 e = .ok ⟨400, "unmarshal body", []⟩ := by
  rcases hu with hu | hu <;>
    exact ⟨by simp [handler1, hm, hb, hu],
           by simp [handler2, extractUserStage, hm, hb, hu]⟩

/-- C7 witness: a concrete environment with an unparseable body. -/
theorem c7_unmarshal_body_rejects_witness :
    handler1 envBadJson = .ok ⟨400, "unmarshal body", []⟩ ∧
    handler2 envBadJson = .ok ⟨400, "unmarshal body", []⟩ :=
  c7_unmarshal_body_rejects envBadJson "not json" rfl rfl (Or.inl rfl)

/-- C8: the two handler variants implement one and the same pipeline: on
every environment (request method and body, JSON decode outcome, stored
object bytes, decode outcomes, clock value, notify outcome) they return
the same status, the same label, and the same trace of collaborator calls
 — in particular they send the same notify message or equally none. -/
theorem c8_handlers_equivalent (e : Env) : handler1 e = handler2 e := by
  by_cases hm : e.method = "POST"
  · cases hb : e.body with
    | error u => simp [handler1, handler2, extractUserStage, hm, hb]
    | ok b =>
      cases hu : e.userOf b with
      | none => simp [handler1, handler2, extractUserStage, hm, hb, hu]
      | some u =>
        by_cases hue : u = ""
        · simp [handler1, handler2, extractUserStage, hm, hb, hu, hue]
        · cases hor : e.objReader (u ++ ".pb.zstd") with
          | error x =>
            simp [handler1, handler2, extractUserStage, readDataStage,
                  hm, hb, hu, hue, hor]
          | ok raw =>
            cases hz : e.zstdNew raw with
            | error x =>
              simp [handler1, handler2, extractUserStage, readDataStage,
                    hm, hb, hu, hue, hor, hz]
            | ok zr =>
              cases hr : e.readObj zr with
              | error x =>
                simp [handler1, handler2, extractUserStage, readDataStage,
                      hm, hb, hu, hue, hor, hz, hr]
              | ok bs =>
                cases hum : e.unmarshalStore bs with
                | error x =>
                  simp [handler1, handler2, extractUserStage, readDataStage,
                        hm, hb, hu, hue, hor, hz, hr, hum]
                | ok playbacks =>
                  cases hs : summarizeE playbacks e.now with
                  | error x =>
                    simp [handler1, handler2, extractUserStage, readDataStage,
                          postSummaryStage, hm, hb, hu, hue, hor, hz, hr, hum, hs]
                  | ok stats =>
                    cases hp : e.post (formatStats stats) with
                    | error x =>
                      simp [handler1, handler2, extractUserStage, readDataStage,
                            postSummaryStage, hm, hb, hu, hue, hor, hz, hr, hum,
                            hs, hp]
                    | ok y =>
                      simp [handler1, handler2, extractUserStage, readDataStage,
                            postSummaryStage, hm, hb, hu, hue, hor, hz, hr, hum,
                            hs, hp]
  · simp [handler1, handler2, extractUserStage, hm]

end Earbug
